import Mathlib

/-!
# Verification of the Smart Task Analyzer scoring core

Shallow embedding of `backend/tasks/scoring.py` (cycle detection over the
task dependency graph, the component scorers, the strategy composer
`score_task`, and the orchestrator `analyze_tasks`), together with proofs
settling the specification claims about that module.

Modelling conventions:
* Python floats are idealised as exact rationals (`ℚ`); every arithmetic
  operation the module performs on them (`+`, `*`, `min`, `max`, `/`,
  comparisons) is exact on rationals.
* The single non-rational operation, `hours ** 1.5` in the `fast_wins`
  branch of the effort scorer, is abstracted as an explicit function
  parameter `pow15 : ℚ → ℚ`; no claim depends on its values, and all
  theorems quantify over it (or instantiate it where a concrete closed
  statement is required and the branch is not reached).
* A Python dict field that may be absent or `None` is a `PyField`;
  a due-date string is represented by the integer day offset
  `due_date - date.today()` that `date.fromisoformat` plus subtraction
  would produce (`DueVal.iso d`), or by `DueVal.bad` for a string
  `fromisoformat` rejects; a value handed to `float(...)` is a `NumVal`.
* Raised exceptions are modelled with `Except PyErr`; `PyErr` records the
  exception class only (messages are irrelevant to every claim).
* Python `round(x, n)` is modelled as exact rounding to a multiple of
  10^(-n); CPython rounds half-to-even on binary floats while `round` here
  rounds half-up, but no claim evaluates `round` at a tie.
* `list.sort(key=..., reverse=True)` is CPython's stable sort in
  descending key order; a stable sort is uniquely determined by its
  comparison, so it is modelled by `List.insertionSort` on the
  "score not below" relation, which is stable in the same sense.
-/

deriving instance DecidableEq for Except

namespace TaskAnalyzer

/-- Python exception classes that `scoring.py` can raise. -/
inductive PyErr where
  | keyError
  | valueError
  | typeError
  | recursionError
  deriving DecidableEq, Repr

/-- A dict entry that can be absent, present-but-`None`, or a value. -/
inductive PyField (α : Type) where
  | absent
  | null
  | val (a : α)
  deriving DecidableEq, Repr

/-- A due-date string: either ISO-parseable with day offset `d` from
today (`(date.fromisoformat s - date.today()).days = d`), or unparseable. -/
inductive DueVal where
  | iso (d : ℤ)
  | bad
  deriving DecidableEq, Repr

/-- A Python value handed to `float(...)`: a number (or numeric string),
or something `float` rejects with `ValueError`/`TypeError`. -/
inductive NumVal where
  | num (q : ℚ)
  | nonNum
  deriving DecidableEq, Repr

/-- A task dict as consumed by `scoring.py`: the `id` key may be absent
(`task['id']` then raises `KeyError`), the four required fields may each be
absent or `None`, and `dependencies` is read with `.get('dependencies', [])`
so an absent key and `[]` coincide. -/
structure Task where
  id? : Option Nat
  title : PyField String
  due_date : PyField DueVal
  estimated_hours : PyField NumVal
  importance : PyField NumVal
  dependencies : List Nat
  deriving DecidableEq, Repr

/-- Python `field not in task or task[field] is None`, the test used by
`score_task`'s required-field validation. -/
def PyField.isMissing {α : Type} : PyField α → Bool
  | .absent => true
  | .null => true
  | .val _ => false

/-! ## Cycle detection (`detect_circular_dependencies`, scoring.py lines 23-68) -/

/-- Python `task_id in task_map` (membership among dict keys). -/
def mapHasKey (m : List (Nat × Task)) (k : Nat) : Bool :=
  m.any (fun p => p.1 == k)

/-- Python `task_map.get(task_id)`. -/
def mapLookup (m : List (Nat × Task)) (k : Nat) : Option Task :=
  (m.find? (fun p => p.1 == k)).map (fun p => p.2)

/-- Dict insertion: a repeated key overwrites in place, a new key is
appended (CPython dicts preserve first-insertion order). -/
def mapInsert (m : List (Nat × Task)) (k : Nat) (v : Task) : List (Nat × Task) :=
  if mapHasKey m k then m.map (fun p => if p.1 == k then (k, v) else p)
  else m ++ [(k, v)]

/-- Python `{task['id']: task for task in tasks}`; raises `KeyError` at the first
task without an `id` key. -/
def buildTaskMapGo (acc : List (Nat × Task)) : List Task → Except PyErr (List (Nat × Task))
  | [] => .ok acc
  | t :: ts =>
    match t.id? with
    | none => .error .keyError
    | some i => buildTaskMapGo (mapInsert acc i t) ts

/-- The `task_map` dict comprehension at line 33. -/
def buildTaskMap (tasks : List Task) : Except PyErr (List (Nat × Task)) :=
  buildTaskMapGo [] tasks

/-- The mutable state shared by all `dfs` calls: the module-level sets
`visited`, `rec_stack` and `circular_tasks` (insertion-ordered here; the
claims only depend on them as sets).  Crucially, `rec_stack` is NOT
reset between top-level traversals, exactly as in the source, where an
early `return True` skips the `rec_stack.remove` cleanup. -/
structure DfsState where
  visited : List Nat
  recStack : List Nat
  circular : List Nat
  deriving DecidableEq, Repr

/-- Python `list.index(x)`: position of the first occurrence, `ValueError` if the
element is absent (this is the exception `path.index(task_id)` can raise). -/
def pyIndex : List Nat → Nat → Except PyErr Nat
  | [], _ => .error .valueError
  | a :: as, x => if a = x then .ok 0 else (pyIndex as x).map (fun n => n + 1)

/-- Python `set.add` keeping insertion order. -/
def setAdd (s : List Nat) (x : Nat) : List Nat :=
  if x ∈ s then s else s ++ [x]

/-- Python `circular_tasks.update(path[cycle_start:])`. -/
def setUpdate (s : List Nat) (xs : List Nat) : List Nat :=
  xs.foldl setAdd s

/-- The recursive core of `dfs` (lines 38-60).  The mode `.inl tid` is a
call `dfs(task_id, path)`; `.inr ds` is the remainder of the
`for dep_id in task.get('dependencies', [])` loop of lines 54-56
(`if dep_id in task_map and dfs(dep_id, path): return True`).  It returns
the updated state, the path list as the caller sees it after the call
(restored by `path.pop()` when returning `False`, left as-is when
returning `True`), and the boolean result.  `fuel` models Python's
recursion limit; it is spent on every step here and is made generously
sufficient by `detect_circular_dependencies`. -/
def dfsGo (tm : List (Nat × Task)) : Nat → Nat ⊕ List Nat → List Nat → DfsState →
    Except PyErr (DfsState × List Nat × Bool)
  | 0, _, _, _ => .error .recursionError
  | fuel + 1, .inl tid, path, st =>
    if tid ∈ st.recStack then
      match (pyIndex path tid : Except PyErr Nat) with
      | .error e => .error e
      | .ok i => .ok ({ st with circular := setUpdate st.circular (path.drop i) }, path, true)
    else if tid ∈ st.visited then
      .ok (st, path, false)
    else
      let st1 : DfsState :=
        { st with visited := st.visited ++ [tid], recStack := st.recStack ++ [tid] }
      let path1 := path ++ [tid]
      let deps := match mapLookup tm tid with
        | some t => t.dependencies
        | none => []
      match dfsGo tm fuel (.inr deps) path1 st1 with
      | .error e => .error e
      | .ok (st2, path2, true) => .ok (st2, path2, true)
      | .ok (st2, path2, false) =>
        .ok ({ st2 with recStack := st2.recStack.erase tid }, path2.dropLast, false)
  | _ + 1, .inr [], path, st => .ok (st, path, false)
  | fuel + 1, .inr (d :: ds), path, st =>
    if mapHasKey tm d then
      match dfsGo tm fuel (.inl d) path st with
      | .error e => .error e
      | .ok (st1, path1, true) => .ok (st1, path1, true)
      | .ok (st1, path1, false) => dfsGo tm fuel (.inr ds) path1 st1
    else
      dfsGo tm fuel (.inr ds) path st

/-- Python `dfs(task_id, path)` as called by the top-level loop. -/
def dfsVisit (tm : List (Nat × Task)) (fuel tid : Nat) (path : List Nat) (st : DfsState) :
    Except PyErr (DfsState × List Nat × Bool) :=
  dfsGo tm fuel (.inl tid) path st

/-- The top-level `for task in tasks: if task['id'] not in visited: dfs(...)`
loop of lines 63-65 (the return value of `dfs` is discarded). -/
def detectLoop (tm : List (Nat × Task)) (fuel : Nat) :
    List Task → DfsState → Except PyErr DfsState
  | [], st => .ok st
  | t :: ts, st =>
    match t.id? with
    | none => .error .keyError
    | some i =>
      if i ∈ st.visited then detectLoop tm fuel ts st
      else
        match dfsVisit tm fuel i [] st with
        | .error e => .error e
        | .ok (st1, _, _) => detectLoop tm fuel ts st1

/-- Python `task_map[task_id]['title']`: `KeyError` when the `title` key is
absent; a `None` title becomes the Python value `None` in the result. -/
def titleItem (t : Task) : Except PyErr (Option String) :=
  match t.title with
  | .absent => .error .keyError
  | .null => .ok none
  | .val s => .ok (some s)

/-- The final comprehension of line 68:
`[task_map[tid]['title'] for tid in circular_tasks if tid in task_map]`. -/
def collectTitles (tm : List (Nat × Task)) : List Nat → Except PyErr (List (Option String))
  | [] => .ok []
  | tid :: rest =>
    match mapLookup tm tid with
    | none => collectTitles tm rest
    | some t =>
      match titleItem t with
      | .error e => .error e
      | .ok s => (collectTitles tm rest).map (fun l => s :: l)

/-- Fuel that strictly dominates the depth of any chain of `dfsGo` steps:
one unit per task plus one per dependency edge, plus one.  (Any
sufficiently large value gives identical results; CPython's actual
recursion limit is far above the sizes exercised here.) -/
def detectFuel (tasks : List Task) : Nat :=
  tasks.foldl (fun n t => n + 1 + t.dependencies.length) 1

/-- Python `detect_circular_dependencies` (lines 23-68).  CPython iterates the
set `circular_tasks` in an unspecified order; here the insertion order of
first detection is used, as §4.1 of the spec suggests for determinism. -/
def detect_circular_dependencies (tasks : List Task) : Except PyErr (List (Option String)) :=
  match buildTaskMap tasks with
  | .error e => .error e
  | .ok tm =>
    match detectLoop tm (detectFuel tasks) tasks ⟨[], [], []⟩ with
    | .error e => .error e
    | .ok st => collectTitles tm st.circular

/-- A fully-populated task used by concrete test inputs; only `id`, `title`
and `dependencies` matter to cycle detection. -/
def mkTask (i : Nat) (title : String) (deps : List Nat) : Task :=
  { id? := some i, title := .val title, due_date := .val (.iso 1),
    estimated_hours := .val (.num 1), importance := .val (.num 5),
    dependencies := deps }

/-! ## Component scorers (scoring.py lines 71-179) -/

/-- Python `date.fromisoformat(due_date_str)` followed by subtraction of
`date.today()`: the day offset for a parseable string, `ValueError`
otherwise. -/
def pyFromIsoformat : DueVal → Except PyErr ℤ
  | .iso d => .ok d
  | .bad => .error .valueError

/-- Python `float(x)`: exact for numbers and numeric strings, raises for
anything else. -/
def pyFloat : NumVal → Except PyErr ℚ
  | .num q => .ok q
  | .nonNum => .error .valueError

/-- Python `calculate_urgency_score` (lines 71-110).  The whole body sits in a
`try` whose `except (ValueError, TypeError)` returns `(1.0, "No deadline")`;
only `fromisoformat` can raise inside it. -/
def calculate_urgency_score (due : DueVal) (max_score : ℚ) (crisis_mode : Bool) : ℚ × String :=
  match pyFromIsoformat due with
  | .error _ => (1, "No deadline")
  | .ok days_until_due =>
    let multiplier : ℚ := if crisis_mode then 3/2 else 1
    if days_until_due < 0 then
      let overdue_penalty : ℚ := ((|days_until_due| : ℤ) : ℚ) * (if crisis_mode then 1 else 1/2)
      (min (max_score + overdue_penalty) 15 * multiplier, "OVERDUE")
    else if days_until_due = 0 then (max_score * multiplier, "Due Today")
    else if days_until_due = 1 then (max_score * (19/20) * multiplier, "Due Tomorrow")
    else if days_until_due ≤ 3 then (max_score * (17/20) * multiplier, "Due in 2-3 days")
    else if days_until_due ≤ 7 then (max_score * (13/20) * multiplier, "Due this week")
    else if days_until_due ≤ 14 then (max_score * (9/20) * multiplier, "Due in 2 weeks")
    else if days_until_due ≤ 30 then (max_score * (1/4) * multiplier, "Due this month")
    else (max_score * (1/10), "Future task")

/-- Python `calculate_effort_score` (lines 113-165).  `pow15` stands for the one
irrational operation `hours ** 1.5` of the `fast_wins` branch.  The body
sits in a `try`; only `float(estimated_hours)` can raise, and the
`except (ValueError, TypeError)` returns `(1.0, "Unknown effort")`. -/
def calculate_effort_score (pow15 : ℚ → ℚ) (estimated_hours : NumVal)
    (strategy energy_level : String) : ℚ × String :=
  match pyFloat estimated_hours with
  | .error _ => (1, "Unknown effort")
  | .ok hours =>
    if hours ≤ 0 then (1, "Quick task")
    else
      let energy_modifier : ℚ :=
        if energy_level = "low" then 7/10
        else if energy_level = "medium" then 1
        else if energy_level = "high" then 13/10
        else 1
      let effort_label :=
        if hours ≤ 1/2 then "⚡ Quick (< 30 min)"
        else if hours ≤ 1 then "🏃 Short (< 1 hour)"
        else if hours ≤ 2 then "📝 Medium (1-2 hours)"
        else if hours ≤ 4 then "🎯 Focused (2-4 hours)"
        else "🏋️ Deep work (4+ hours)"
      if strategy = "fast_wins" then
        (max (10 - pow15 hours) 1 * energy_modifier, effort_label)
      else if strategy = "high_impact" then
        (max (6 - hours * (1/5)) 4, effort_label)
      else if strategy = "deadline_driven" then
        (max (7 - hours * (3/10)) 2, effort_label)
      else
        (max (8 - hours * (1/2)) 1 * energy_modifier, effort_label)

/-- Python `calculate_dependency_boost` (lines 168-179): `task['id']` raises
`KeyError` when the key is absent; otherwise the loop counts every task in
`all_tasks` (the task itself included) whose dependency list contains the
id, and the boost is that count times 2.0. -/
def calculate_dependency_boost (task : Task) (all_tasks : List Task) : Except PyErr ℚ :=
  match task.id? with
  | none => .error .keyError
  | some task_id =>
    .ok (((all_tasks.countP (fun o => o.dependencies.contains task_id) : ℕ) : ℚ) * 2)

/-! ## Strategy composer (`score_task`, scoring.py lines 182-318) -/

/-- A complete per-strategy weight vector.  (A partial override dict would
make `weights['...']` raise; overrides are modelled as complete vectors,
which is the only shape the spec's contract allows callers to pass.) -/
structure Weights where
  urgency : ℚ
  importance : ℚ
  effort : ℚ
  dependency : ℚ
  deriving DecidableEq, Repr

/-- The optional `config` mapping: each key either absent or an override. -/
structure Config where
  fast_wins_weights : Option Weights
  high_impact_weights : Option Weights
  deadline_driven_weights : Option Weights
  smart_balance_weights : Option Weights
  deriving DecidableEq, Repr

/-- Python `config = {}`. -/
def Config.empty : Config := ⟨none, none, none, none⟩

/-- The `user_preferences` dict: each key either absent or a value. -/
structure Prefs where
  available_hours : Option ℚ
  energy_level : Option String
  deriving DecidableEq, Repr

/-- Python `user_preferences = {}`. -/
def Prefs.empty : Prefs := ⟨none, none⟩

/-- The metadata dict built at lines 308-316. -/
structure MetaEntries where
  urgency_label : String
  effort_label : String
  strategy_desc : String
  urgency_score : ℚ
  effort_score : ℚ
  importance_score : ℚ
  dependency_boost : ℚ
  deriving DecidableEq, Repr

/-- Python `score_task`'s metadata result: `{}` on the missing-fields path, the
full dict otherwise. -/
inductive MetaDict where
  | empty
  | full (m : MetaEntries)
  deriving DecidableEq, Repr

/-- Python `round(q, 2)`.  (CPython rounds half-to-even; `round` here is
half-up. No claim evaluates a tie, so the difference is unobservable in
this development.) -/
def pyRound2 (q : ℚ) : ℚ := ((round (q * 100) : ℤ) : ℚ) / 100

/-- Python `round(q, 1)` (same tie caveat as `pyRound2`). -/
def pyRound1 (q : ℚ) : ℚ := ((round (q * 10) : ℤ) : ℚ) / 10

/-- The list built by
`[field for field in required_fields if field not in task or task[field] is None]`
with `required_fields = ['title', 'due_date', 'estimated_hours', 'importance']`. -/
def missingFields (t : Task) : List String :=
  (if t.title.isMissing then ["title"] else [])
    ++ (if t.due_date.isMissing then ["due_date"] else [])
    ++ (if t.estimated_hours.isMissing then ["estimated_hours"] else [])
    ++ (if t.importance.isMissing then ["importance"] else [])

/-- The body of `score_task` after validation has passed (lines 217-318),
with the four field values in hand. -/
def scoreValidTask (pow15 : ℚ → ℚ) (task : Task) (strategy : String) (config : Config)
    (all_tasks : List Task) (energy_level : String) (crisis_mode : Bool)
    (dueV : DueVal) (hoursV impV : NumVal) : Except PyErr (ℚ × String × MetaDict) :=
  let (urgency_score, urgency_label) := calculate_urgency_score dueV 10 crisis_mode
  match pyFloat impV with
  | .error e => .error e
  | .ok importance =>
    let (effort_score, effort_label) := calculate_effort_score pow15 hoursV strategy energy_level
    match calculate_dependency_boost task all_tasks with
    | .error e => .error e
    | .ok dependency_boost =>
      let (weights, strategy_desc, base_reason) :=
        if strategy = "fast_wins" then
          (config.fast_wins_weights.getD ⟨1/4, 3/20, 1/2, 1/10⟩,
            "⚡ Speed Mode", "Quick completion for maximum momentum")
        else if strategy = "high_impact" then
          (config.high_impact_weights.getD ⟨3/20, 11/20, 1/10, 1/5⟩,
            "🎯 Effective Mode", "High-value task for maximum impact")
        else if strategy = "deadline_driven" then
          (config.deadline_driven_weights.getD ⟨13/20, 3/20, 1/10, 1/10⟩,
            "🚨 Deadline Crisis Mode", "Urgent deadline - immediate attention required")
        else
          (config.smart_balance_weights.getD ⟨3/10, 3/10, 1/5, 1/5⟩,
            "⚖️ Balanced Mode", "Balanced prioritization for optimal productivity")
      let raw_score := urgency_score * weights.urgency + importance * weights.importance
        + effort_score * weights.effort + dependency_boost * weights.dependency
      let score := min (max raw_score 0) 10
      let details : List String :=
        (if urgency_label = "OVERDUE" then ["⚠️ OVERDUE"]
          else if urgency_label = "Due Today" then ["🔥 Due today"]
          else if urgency_label = "Due Tomorrow" then ["⏰ Due tomorrow"]
          else if urgency_score > 7 then ["📅 " ++ urgency_label]
          else [])
        ++ (if importance ≥ 9 then ["💎 Critical importance"]
            else if importance ≥ 7 then ["⭐ High importance"]
            else [])
        ++ (if effort_score > 7 then ["⚡ Quick win"] else [])
        ++ (if dependency_boost > 0 then
              [let blocking_count : ℤ := ⌊dependency_boost / 2⌋
               "🔗 Blocks " ++ toString blocking_count
                 ++ (if blocking_count > 1 then " tasks" else " task")]
            else [])
      let reason :=
        if details.isEmpty then base_reason
        else base_reason ++ " | " ++ String.intercalate " • " details
      let metadata : MetaEntries :=
        { urgency_label := urgency_label
          effort_label := effort_label
          strategy_desc := strategy_desc
          urgency_score := pyRound2 urgency_score
          effort_score := pyRound2 effort_score
          importance_score := importance
          dependency_boost := pyRound2 dependency_boost }
      .ok (pyRound2 score, reason, .full metadata)

/-- Python `score_task` (lines 182-318).  `none` for `config`, `all_tasks` or
`user_preferences` is Python's `None` default, resolved at lines 197-204;
validation of the four required fields happens before any component scorer
runs, so the missing-fields outcome is a normal return for every strategy,
config, batch and preferences. -/
def score_task (pow15 : ℚ → ℚ) (task : Task) (strategy : String) (config? : Option Config)
    (all_tasks? : Option (List Task)) (user_preferences? : Option Prefs) :
    Except PyErr (ℚ × String × MetaDict) :=
  let config := config?.getD Config.empty
  let all_tasks := all_tasks?.getD [task]
  let user_preferences := user_preferences?.getD Prefs.empty
  let energy_level := user_preferences.energy_level.getD "medium"
  let crisis_mode : Bool := strategy = "deadline_driven"
  match task.title, task.due_date, task.estimated_hours, task.importance with
  | .val _, .val dueV, .val hoursV, .val impV =>
    scoreValidTask pow15 task strategy config all_tasks energy_level crisis_mode dueV hoursV impV
  | _, _, _, _ =>
    .ok (0, "Missing required fields: " ++ String.intercalate ", " (missingFields task), .empty)

/-! ## Analysis orchestrator (`analyze_tasks`, scoring.py lines 321-437) -/

/-- One row of `scored_tasks`.  Python adds the `can_complete_today` key
only during the feasibility walk, hence the `Option`. -/
structure ScoredTask where
  task : Task
  score : ℚ
  reason : String
  priority_level : String
  metadata : MetaDict
  can_complete_today : Option Bool
  deriving DecidableEq, Repr

/-- The priority tier thresholds of lines 367-374. -/
def priorityLevel (score : ℚ) : String :=
  if score ≥ 9 then "Critical"
  else if score ≥ 7 then "High"
  else if score ≥ 5 then "Medium"
  else "Low"

/-- Python `float(task.get('estimated_hours', 0))`: an absent key defaults to
`0`, a present `None` raises `TypeError`, a non-numeric value raises
`ValueError`. -/
def pyFloatField : PyField NumVal → Except PyErr ℚ
  | .absent => .ok 0
  | .null => .error .typeError
  | .val v => pyFloat v

/-- Python `task.get('title', 'Unknown')` rendered into the warning f-string
(a `None` title prints as `None`). -/
def titleOrUnknown (t : Task) : String :=
  match t.title with
  | .absent => "Unknown"
  | .null => "None"
  | .val s => s

/-- Python `str(e)` for the warning f-string (the class name stands in for the
message, which no claim inspects). -/
def errStr : PyErr → String
  | .keyError => "KeyError"
  | .valueError => "ValueError"
  | .typeError => "TypeError"
  | .recursionError => "RecursionError"

/-- One iteration of the scoring loop body (lines 363-385): `score_task`,
then `float(task.get('estimated_hours', 0))`; either exception is caught
by the surrounding `except` (the priority tier computed between them has
no effect when the `float` raises). -/
def scoreOne (pow15 : ℚ → ℚ) (strategy : String) (config? : Option Config)
    (batch : List Task) (prefs? : Option Prefs) (task : Task) :
    Except PyErr (ScoredTask × ℚ) :=
  match score_task pow15 task strategy config? (some batch) prefs? with
  | .error e => .error e
  | .ok (score, reason, metadata) =>
    match pyFloatField task.estimated_hours with
    | .error e => .error e
    | .ok task_hours =>
      .ok ({ task := task, score := score, reason := reason,
             priority_level := priorityLevel score, metadata := metadata,
             can_complete_today := none }, task_hours)

/-- The `for task in tasks: try ... except` loop of lines 362-387,
returning the scored rows (in input order), the accumulated warnings, and
`total_hours`. -/
def scoreLoop (pow15 : ℚ → ℚ) (strategy : String) (config? : Option Config)
    (batch : List Task) (prefs? : Option Prefs) :
    List Task → List ScoredTask × List String × ℚ
  | [] => ([], [], 0)
  | t :: ts =>
    let rest := scoreLoop pow15 strategy config? batch prefs? ts
    match scoreOne pow15 strategy config? batch prefs? t with
    | .error e =>
      (rest.1, ("Error scoring task '" ++ titleOrUnknown t ++ "': " ++ errStr e) :: rest.2.1,
        rest.2.2)
    | .ok (st, h) => (st :: rest.1, rest.2.1, rest.2.2 + h)

/-- "Score of `a` is not below score of `b`": the comparison under
`scored_tasks.sort(key=lambda x: x['score'], reverse=True)`. -/
def scoreGE (a b : ScoredTask) : Prop := b.score ≤ a.score

instance : DecidableRel scoreGE :=
  fun a b => inferInstanceAs (Decidable (b.score ≤ a.score))

instance : IsTotal ScoredTask scoreGE := ⟨fun a b => le_total b.score a.score⟩

instance : IsTrans ScoredTask scoreGE := ⟨fun _ _ _ h1 h2 => le_trans h2 h1⟩

/-- Line 390, `scored_tasks.sort(key=lambda x: x['score'], reverse=True)`:
CPython's sort is stable (also with `reverse=True`, which reverses the
comparison but never the order of ties).  A stable sort is determined
uniquely by its comparison, so insertion sort on `scoreGE` is an exact
model. -/
def pySortByScoreDesc (l : List ScoredTask) : List ScoredTask :=
  List.insertionSort scoreGE l

/-- The feasibility walk of lines 393-402 on the extracted hour values:
flags in order, the final `cumulative_hours`, and `tasks_today`. -/
def feasWalkHours (available_hours : ℚ) : List ℚ → ℚ → List Bool × ℚ × Nat
  | [], cumulative => ([], cumulative, 0)
  | h :: rest, cumulative =>
    if cumulative + h ≤ available_hours then
      let r := feasWalkHours available_hours rest (cumulative + h)
      (true :: r.1, r.2.1, r.2.2 + 1)
    else
      let r := feasWalkHours available_hours rest cumulative
      (false :: r.1, r.2.1, r.2.2)

/-- The per-iteration `float(st['task'].get('estimated_hours', 0))` of
line 396, hoisted out of the walk: the loop raises at the first bad value
and the flags written before a raise are unobservable (the raise
propagates out of `analyze_tasks`), so running all conversions first is
observationally equivalent. -/
def extractHours : List ScoredTask → Except PyErr (List ℚ)
  | [] => .ok []
  | st :: rest =>
    match pyFloatField st.task.estimated_hours with
    | .error e => .error e
    | .ok h => (extractHours rest).map (fun hs => h :: hs)

/-- Writing `st['can_complete_today'] = b` into the sorted rows. -/
def markFlags : List ScoredTask → List Bool → List ScoredTask
  | [], _ => []
  | _ :: _, [] => []
  | st :: sts, b :: bs => { st with can_complete_today := some b } :: markFlags sts bs

/-- The overdue test of line 406,
`date.fromisoformat(t.get('due_date', str(today))) < today`: an absent key
falls back to today's own ISO string (not overdue); a present `None`
raises `TypeError`; an unparseable string raises `ValueError`. -/
def overdueCheck (t : Task) : Except PyErr Bool :=
  match t.due_date with
  | .absent => .ok false
  | .null => .error .typeError
  | .val .bad => .error .valueError
  | .val (.iso d) => .ok (decide (d < 0))

/-- Python `sum(1 for t in tasks if date.fromisoformat(...) < today)` of
line 406 (the generator evaluates left to right, so the first bad due
date raises). -/
def overdueCount : List Task → Except PyErr Nat
  | [] => .ok 0
  | t :: ts =>
    match overdueCheck t with
    | .error e => .error e
    | .ok b => (overdueCount ts).map (fun n => if b then n + 1 else n)

/-- The `insights` dict of lines 409-418. -/
structure Insights where
  total_hours_needed : ℚ
  available_hours : ℚ
  tasks_completable_today : Nat
  hours_completable_today : ℚ
  overdue_tasks : Nat
  urgent_tasks : Nat
  energy_level : String
  productivity_ratio : ℚ
  deriving DecidableEq, Repr

/-- The result dict of `analyze_tasks`.  The empty-batch short-circuit of
lines 338-345 omits several keys, modelled with `none`/`[]` defaults. -/
structure AnalysisResult where
  analyzed_tasks : List ScoredTask
  strategy_used : String
  strategy_description : Option String
  total_tasks : Nat
  circular_dependencies : Option (List (Option String))
  warnings : List String
  insights : Option Insights
  user_preferences : Option Prefs
  deriving DecidableEq, Repr

/-- Python `strategy_descriptions.get(strategy, 'Custom strategy')` (lines 421-426). -/
def strategyDescription (strategy : String) : String :=
  if strategy = "fast_wins" then "Optimized for quick completions to build momentum"
  else if strategy = "high_impact" then "Focused on high-value tasks for maximum impact"
  else if strategy = "deadline_driven" then "Prioritized by deadline urgency to prevent overdue tasks"
  else if strategy = "smart_balance" then "Balanced approach considering urgency, importance, and effort"
  else "Custom strategy"

/-- Python `', '.join(circular_deps)`: joining raises `TypeError` when the list
contains a `None` title. -/
def forceTitles : List (Option String) → Except PyErr (List String)
  | [] => .ok []
  | some s :: rest => (forceTitles rest).map (fun l => s :: l)
  | none :: _ => .error .typeError

/-- Python `analyze_tasks` (lines 321-437). -/
def analyze_tasks (pow15 : ℚ → ℚ) (tasks : List Task) (strategy : String)
    (config? : Option Config) (user_preferences? : Option Prefs) :
    Except PyErr AnalysisResult :=
  let user_preferences := user_preferences?.getD Prefs.empty
  if tasks.isEmpty then
    .ok { analyzed_tasks := [], strategy_used := strategy, strategy_description := none,
          total_tasks := 0, circular_dependencies := none,
          warnings := ["No tasks provided for analysis"], insights := none,
          user_preferences := none }
  else
    match detect_circular_dependencies tasks with
    | .error e => .error e
    | .ok circular_deps =>
      match (if circular_deps.isEmpty then Except.ok ([] : List String)
             else (forceTitles circular_deps).map
               (fun ts => ["Circular dependencies detected in: " ++ String.intercalate ", " ts])) with
      | .error e => .error e
      | .ok warnings0 =>
        let available_hours := user_preferences.available_hours.getD 8
        let energy_level := user_preferences.energy_level.getD "medium"
        let loopOut := scoreLoop pow15 strategy config? tasks (some user_preferences) tasks
        let scored_tasks := loopOut.1
        let score_warnings := loopOut.2.1
        let total_hours := loopOut.2.2
        let sorted := pySortByScoreDesc scored_tasks
        match extractHours sorted with
        | .error e => .error e
        | .ok hs =>
          let walk := feasWalkHours available_hours hs 0
          let analyzed := markFlags sorted walk.1
          match overdueCount tasks with
          | .error e => .error e
          | .ok overdue_count =>
            .ok { analyzed_tasks := analyzed,
                  strategy_used := strategy,
                  strategy_description := some (strategyDescription strategy),
                  total_tasks := scored_tasks.length,
                  circular_dependencies := some circular_deps,
                  warnings := warnings0 ++ score_warnings,
                  insights := some
                    { total_hours_needed := pyRound1 total_hours,
                      available_hours := available_hours,
                      tasks_completable_today := walk.2.2,
                      hours_completable_today := pyRound1 walk.2.1,
                      overdue_tasks := overdue_count,
                      urgent_tasks := sorted.countP (fun st => st.score ≥ 7),
                      energy_level := energy_level,
                      productivity_ratio :=
                        if 0 < available_hours then pyRound1 (walk.2.1 / available_hours * 100)
                        else 0 },
                  user_preferences := some user_preferences }

/-! ## Concrete inputs and auxiliary definitions used by the claim theorems -/

/-- A concrete stand-in for `hours ** 1.5`, used only in closed statements
whose evaluation never reaches the `fast_wins` main branch. -/
def pw0 : ℚ → ℚ := fun q => q * q

/-- Tests whether an `Except` value is a success. -/
def exceptIsOk {ε α : Type} : Except ε α → Bool
  | .ok _ => true
  | .error _ => false

/-- A well-formed task except for its unparseable due-date string. -/
def badDueTask : Task :=
  { id? := some 1, title := .val "Task A", due_date := .val .bad,
    estimated_hours := .val (.num 1), importance := .val (.num 5), dependencies := [] }

/-- A task whose `title` key is absent. -/
def missingTitleTask : Task :=
  { id? := some 1, title := .absent, due_date := .val (.iso 0),
    estimated_hours := .val (.num 1), importance := .val (.num 5), dependencies := [] }

/-- A task listing its own id as a dependency. -/
def selfRefTask : Task :=
  { id? := some 1, title := .val "Self", due_date := .val (.iso 1),
    estimated_hours := .val (.num 1), importance := .val (.num 5), dependencies := [1] }

/-- A task without an `id` key. -/
def noIdTask : Task :=
  { id? := none, title := .val "NoId", due_date := .val (.iso 0),
    estimated_hours := .val (.num 1), importance := .val (.num 5), dependencies := [] }

/-- Modelled from the claim's words (for comparison with
`calculate_dependency_boost`, which is translated from the source): the
number of OTHER tasks in the batch whose dependency list contains the
given task's id. -/
def numOtherDependents (t : Task) (batch : List Task) : Nat :=
  (batch.filter (fun o => o ≠ t)).countP
    (fun o =>
      match t.id? with
      | some i => o.dependencies.contains i
      | none => false)

/-- The hours committed by the flagged entries of a (prefix of a) walk:
`Σ hᵢ` over positions marked `true`. -/
def committedHours (hs : List ℚ) (flags : List Bool) : ℚ :=
  (List.zipWith (fun h b => if b then h else (0 : ℚ)) hs flags).sum

/-- The score/task projection of a scored row (everything the ordering
claims are about; untouched by the feasibility-flag write). -/
def projST (st : ScoredTask) : ℚ × Task := (st.score, st.task)

/-- Fallback value for extracting an `AnalysisResult` out of `Except`. -/
def arDefault : AnalysisResult :=
  { analyzed_tasks := [], strategy_used := "", strategy_description := none, total_tasks := 0,
    circular_dependencies := none, warnings := [], insights := none, user_preferences := none }

/-- The concrete analysis result used to witness the sorting claim. -/
def c8Res : AnalysisResult :=
  ((analyze_tasks pw0 [mkTask 1 "G" []] "smart_balance" none none).toOption).getD arDefault

/-- The concrete analysis result used to witness the feasibility claim. -/
def c6Res : AnalysisResult :=
  ((analyze_tasks pw0 [mkTask 1 "W" []] "smart_balance" none none).toOption).getD arDefault

/-! ## Helper lemmas -/

/-- The dict comprehension raises `KeyError` whenever some task in the
list has no `id` key. -/
theorem buildTaskMapGo_err (acc : List (Nat × Task)) (ts : List Task)
    (h : ∃ t ∈ ts, t.id? = none) : buildTaskMapGo acc ts = .error .keyError := by
  induction ts generalizing acc with
  | nil => rcases h with ⟨t, ht, _⟩; cases ht
  | cons u us ih =>
    rcases h with ⟨t, ht, hid⟩
    rcases List.mem_cons.mp ht with rfl | hmem
    · simp [buildTaskMapGo, hid]
    · cases hu : u.id? with
      | none => simp [buildTaskMapGo, hu]
      | some i => simpa [buildTaskMapGo, hu] using ih (mapInsert acc i u) ⟨t, hmem, hid⟩

/-- The walk emits one flag per hour entry. -/
theorem feasWalkHours_length (avail : ℚ) :
    ∀ (hs : List ℚ) (cum : ℚ), (feasWalkHours avail hs cum).1.length = hs.length := by
  intro hs
  induction hs with
  | nil => intro cum; rfl
  | cons h t ih =>
    intro cum
    by_cases hc : cum + h ≤ avail <;> simp [feasWalkHours, hc, ih]

/-- A position flagged `true` contributes its hours to the committed sum. -/
theorem committedHours_cons_true (h : ℚ) (t : List ℚ) (fl : List Bool) :
    committedHours (h :: t) (true :: fl) = h + committedHours t fl := by
  simp [committedHours]

/-- A position flagged `false` contributes nothing to the committed sum. -/
theorem committedHours_cons_false (h : ℚ) (t : List ℚ) (fl : List Bool) :
    committedHours (h :: t) (false :: fl) = committedHours t fl := by
  simp [committedHours]

/-- Characterisation of the walk's flags, with an arbitrary starting
accumulator: position `i` is flagged exactly when the start value plus the
hours of the flagged positions before `i` plus the hours at `i` fit the
budget. -/
theorem feasWalkHours_flag (avail : ℚ) :
    ∀ (hs : List ℚ) (cum : ℚ) (i : Nat), i < hs.length →
      (((feasWalkHours avail hs cum).1.getD i false) = true ↔
        cum + committedHours (hs.take i) ((feasWalkHours avail hs cum).1.take i)
          + hs.getD i 0 ≤ avail) := by
  intro hs
  induction hs with
  | nil => intro cum i hi; simp at hi
  | cons h t ih =>
    intro cum i hi
    by_cases hc : cum + h ≤ avail
    · have hw : (feasWalkHours avail (h :: t) cum).1 =
          true :: (feasWalkHours avail t (cum + h)).1 := by
        simp [feasWalkHours, hc]
      cases i with
      | zero => simpa [hw, committedHours] using hc
      | succ j =>
        have hj : j < t.length := by simpa using hi
        rw [hw, List.getD_cons_succ, List.getD_cons_succ, List.take_succ_cons,
          List.take_succ_cons, committedHours_cons_true, ih (cum + h) j hj]
        constructor <;> intro hx <;> linarith
    · have hw : (feasWalkHours avail (h :: t) cum).1 =
          false :: (feasWalkHours avail t cum).1 := by
        simp [feasWalkHours, hc]
      cases i with
      | zero => simpa [hw, committedHours] using hc
      | succ j =>
        have hj : j < t.length := by simpa using hi
        rw [hw, List.getD_cons_succ, List.getD_cons_succ, List.take_succ_cons,
          List.take_succ_cons, committedHours_cons_false]
        exact ih cum j hj

/-- Inverting a successful run of `analyze_tasks`: either the batch was
empty (and the result rows are empty), or the result rows are exactly the
scored rows, stable-sorted by descending score, flagged by the greedy
feasibility walk over their extracted hours. -/
theorem analyze_ok_shape (pw : ℚ → ℚ) (tasks : List Task) (strategy : String)
    (config? : Option Config) (prefs? : Option Prefs) (r : AnalysisResult)
    (h : analyze_tasks pw tasks strategy config? prefs? = .ok r) :
    (tasks = [] ∧ r.analyzed_tasks = [])
    ∨ ∃ hs,
        extractHours (pySortByScoreDesc
          (scoreLoop pw strategy config? tasks (some (prefs?.getD Prefs.empty)) tasks).1) =
            .ok hs
        ∧ r.analyzed_tasks =
            markFlags
              (pySortByScoreDesc
                (scoreLoop pw strategy config? tasks (some (prefs?.getD Prefs.empty)) tasks).1)
              (feasWalkHours ((prefs?.getD Prefs.empty).available_hours.getD 8) hs 0).1 := by
  unfold analyze_tasks at h
  split at h
  · next hemp =>
    left
    injection h with h
    subst h
    exact ⟨List.isEmpty_iff.mp hemp, rfl⟩
  · next hemp =>
    right
    split at h
    · exact absurd h (by simp)
    · next circular_deps hdet =>
      split at h
      · exact absurd h (by simp)
      · next warnings0 hwarn =>
        split at h
        · cases hex : extractHours (pySortByScoreDesc
              (scoreLoop pw strategy config? tasks (some (prefs?.getD Prefs.empty)) tasks).1) with
          | error e => simp [hex] at h
          | ok hs => simp [hex] at h
        · next overdue_count hov =>
          cases hex : extractHours (pySortByScoreDesc
              (scoreLoop pw strategy config? tasks (some (prefs?.getD Prefs.empty)) tasks).1) with
          | error e => simp [hex] at h
          | ok hs =>
            simp only [hex] at h
            injection h with h
            subst h
            exact ⟨hs, rfl, rfl⟩

/-- A successful hour extraction yields one value per row. -/
theorem extractHours_length :
    ∀ (l : List ScoredTask) (hs : List ℚ), extractHours l = .ok hs → hs.length = l.length := by
  intro l
  induction l with
  | nil =>
    intro hs h
    injection h with h
    subst h
    rfl
  | cons st rest ih =>
    intro hs h
    unfold extractHours at h
    cases hf : pyFloatField st.task.estimated_hours with
    | error e => rw [hf] at h; exact absurd h (by simp)
    | ok q =>
      rw [hf] at h
      cases he : extractHours rest with
      | error e => rw [he] at h; exact absurd h (by simp [Except.map])
      | ok hs' =>
        rw [he] at h
        simp only [Except.map] at h
        injection h with h
        subst h
        simp [ih hs' he]

/-- Writing the feasibility flags does not change score or task. -/
theorem markFlags_map_proj :
    ∀ (l : List ScoredTask) (bs : List Bool), bs.length = l.length →
      (markFlags l bs).map projST = l.map projST := by
  intro l
  induction l with
  | nil => intro bs _; cases bs <;> rfl
  | cons st sts ih =>
    intro bs hb
    cases bs with
    | nil => simp at hb
    | cons b bs' =>
      simp only [markFlags, List.map_cons]
      rw [ih bs' (by simpa using hb)]
      rfl

/-- Writing the feasibility flags commutes with filtering on a score
value (up to the score/task projection). -/
theorem markFlags_filter_map (s : ℚ) :
    ∀ (l : List ScoredTask) (bs : List Bool), bs.length = l.length →
      ((markFlags l bs).filter (fun st => decide (st.score = s))).map projST =
        (l.filter (fun st => decide (st.score = s))).map projST := by
  intro l
  induction l with
  | nil => intro bs _; cases bs <;> rfl
  | cons st sts ih =>
    intro bs hb
    cases bs with
    | nil => simp at hb
    | cons b bs' =>
      have htail := ih bs' (by simpa using hb)
      by_cases hsc : st.score = s
      · simp only [markFlags, List.filter_cons]
        simp [hsc, projST, htail]
      · simp only [markFlags, List.filter_cons]
        simp [hsc, htail]

/-- Stability of one insertion step: inserting `x` adds it in front of the
equal-score entries already present only when the list head strictly
beats it, never behind an equal-score entry. -/
theorem filter_orderedInsert_score (s : ℚ) (x : ScoredTask) :
    ∀ l : List ScoredTask,
      (List.orderedInsert scoreGE x l).filter (fun st => decide (st.score = s)) =
        (if x.score = s then [x] else []) ++ l.filter (fun st => decide (st.score = s)) := by
  intro l
  induction l with
  | nil => by_cases hx : x.score = s <;> simp [List.orderedInsert, hx]
  | cons b t ih =>
    by_cases hxb : scoreGE x b
    · by_cases hx : x.score = s <;>
        simp [List.orderedInsert, hxb, hx, List.filter_cons]
    · have hord : List.orderedInsert scoreGE x (b :: t) = b :: List.orderedInsert scoreGE x t := by
        simp [List.orderedInsert, hxb]
      by_cases hx : x.score = s
      · have hb : ¬b.score = s := fun hbs => hxb (le_of_eq (hbs.trans hx.symm))
        rw [hord]
        simp [List.filter_cons, hb, hx, ih]
      · rw [hord]
        by_cases hb : b.score = s <;> simp [List.filter_cons, hb, hx, ih]

/-- Stability of the sort: the entries carrying any given score appear in
the sorted output exactly as they appear in the input. -/
theorem filter_insertionSort_score (s : ℚ) :
    ∀ l : List ScoredTask,
      (pySortByScoreDesc l).filter (fun st => decide (st.score = s)) =
        l.filter (fun st => decide (st.score = s)) := by
  intro l
  induction l with
  | nil => rfl
  | cons x t ih =>
    show (List.orderedInsert scoreGE x (List.insertionSort scoreGE t)).filter _ = _
    rw [filter_orderedInsert_score]
    have ih' : (List.insertionSort scoreGE t).filter (fun st => decide (st.score = s)) =
        t.filter (fun st => decide (st.score = s)) := ih
    rw [ih']
    by_cases hx : x.score = s <;> simp [List.filter_cons, hx]

/-- A successfully scored row keeps its input task. -/
theorem scoreOne_ok_task (pw : ℚ → ℚ) (strategy : String) (config? : Option Config)
    (batch : List Task) (prefs? : Option Prefs) (t : Task) (p : ScoredTask × ℚ)
    (h : scoreOne pw strategy config? batch prefs? t = .ok p) : p.1.task = t := by
  unfold scoreOne at h
  split at h
  · exact absurd h (by simp)
  · split at h
    · exact absurd h (by simp)
    · injection h with h
      subst h
      rfl

/-- The scoring loop emits a subsequence of the input batch: rows appear
in batch order and failed tasks are skipped. -/
theorem scoreLoop_tasks_sublist (pw : ℚ → ℚ) (strategy : String) (config? : Option Config)
    (batch : List Task) (prefs? : Option Prefs) :
    ∀ ts : List Task,
      ((scoreLoop pw strategy config? batch prefs? ts).1.map (fun st => st.task)).Sublist ts := by
  intro ts
  induction ts with
  | nil => simp [scoreLoop]
  | cons t ts ih =>
    simp only [scoreLoop]
    cases h1 : scoreOne pw strategy config? batch prefs? t with
    | error e => exact List.Sublist.cons t ih
    | ok p =>
      simp only [List.map_cons]
      rw [scoreOne_ok_task pw strategy config? batch prefs? t p h1]
      exact List.Sublist.cons₂ t ih

/-! ## Claim theorems -/

/-- Claim C1 (code_bug evaluation): `analyze_tasks` on a one-task batch
whose due date is an unparseable string raises `ValueError` out of the
insights computation (line 406, `date.fromisoformat(t.get('due_date',
str(today)))`), for every model of `hours ** 1.5`, even though scoring
that same task succeeds (the urgency scorer falls back to
`(1.0, "No deadline")`).  This contradicts the claim that such a task is
counted as not overdue and the analysis never fails. -/
theorem claim_C1 :
    (∀ pw : ℚ → ℚ, analyze_tasks pw [badDueTask] "smart_balance" none none = .error .valueError)
    ∧ exceptIsOk
        (score_task pw0 badDueTask "smart_balance" none (some [badDueTask]) (some Prefs.empty)) =
      true :=
  ⟨fun _ => rfl, rfl⟩

/-- Claim C2 (code_bug evaluation): on the batch `A → B → A` plus
`C → A`, the traversal from `C` reaches `A`, which the first traversal
left on `rec_stack` (the early `return True` skips the cleanup), and
`path.index(A)` on the fresh path `[C]` raises `ValueError`; the whole
analysis then raises instead of reporting the cycle `{A, B}`. -/
theorem claim_C2 :
    detect_circular_dependencies
        [mkTask 1 "Task A" [2], mkTask 2 "Task B" [1], mkTask 3 "Task C" [1]] =
      .error .valueError
    ∧ (∀ pw : ℚ → ℚ,
        analyze_tasks pw [mkTask 1 "Task A" [2], mkTask 2 "Task B" [1], mkTask 3 "Task C" [1]]
            "smart_balance" none none =
          .error .valueError) :=
  ⟨by decide, fun _ => rfl⟩

/-- Claim C3: the four contract cases of `detect_circular_dependencies`:
a two-task mutual dependency returns both titles; a three-task chain with
no back-edge returns the empty list; a self-referencing task returns
exactly its own title; a dependency id not present in the batch is
ignored (no edge, no error). -/
theorem claim_C3 :
    detect_circular_dependencies [mkTask 1 "Task A" [2], mkTask 2 "Task B" [1]] =
      .ok [some "Task A", some "Task B"]
    ∧ detect_circular_dependencies
        [mkTask 1 "Task 1" [], mkTask 2 "Task 2" [1], mkTask 3 "Task 3" [2]] = .ok []
    ∧ detect_circular_dependencies [mkTask 1 "Self" [1]] = .ok [some "Self"]
    ∧ detect_circular_dependencies [mkTask 1 "Lonely" [99]] = .ok [] := by
  refine ⟨by decide, by decide, by decide, by decide⟩

/-- Claim C4 (counterexample): a non-numeric duration yields the label
`"Unknown effort"` (the `except` clause at lines 164-165), not
`"Quick task"` as claimed. -/
theorem claim_C4_counterexample :
    calculate_effort_score pw0 .nonNum "smart_balance" "medium" = (1, "Unknown effort")
    ∧ calculate_effort_score pw0 .nonNum "smart_balance" "medium" ≠ (1, "Quick task") := by
  refine ⟨rfl, fun h => ?_⟩
  rw [show calculate_effort_score pw0 .nonNum "smart_balance" "medium" = (1, "Unknown effort")
    from rfl] at h
  exact absurd (congrArg Prod.snd h) (by decide)

/-- Claim C4 (amended): for every strategy and energy level,
a non-positive numeric duration yields score 1.0 with label
`"Quick task"`, and a non-numeric duration yields score 1.0 with label
`"Unknown effort"`; neither raises. -/
theorem claim_C4_amended (pow15 : ℚ → ℚ) (strategy energy_level : String) :
    (∀ q : ℚ, q ≤ 0 →
      calculate_effort_score pow15 (.num q) strategy energy_level = (1, "Quick task"))
    ∧ calculate_effort_score pow15 .nonNum strategy energy_level = (1, "Unknown effort") := by
  refine ⟨fun q hq => ?_, rfl⟩
  simp [calculate_effort_score, pyFloat, hq]

/-- Witness for the amended C4 at duration `-1`, strategy `fast_wins`,
energy `high`. -/
theorem claim_C4_amended_witness :
    calculate_effort_score pw0 (.num (-1)) "fast_wins" "high" = (1, "Quick task")
    ∧ calculate_effort_score pw0 .nonNum "fast_wins" "high" = (1, "Unknown effort") :=
  ⟨(claim_C4_amended pw0 "fast_wins" "high").1 (-1) (by norm_num),
    (claim_C4_amended pw0 "fast_wins" "high").2⟩

/-- Claim C5: a task missing (or holding `None` in) any of `title`,
`due_date`, `estimated_hours`, `importance` scores 0.0 with a reason
listing exactly the missing field names and empty metadata, without
raising, for every strategy, config, batch and preferences. -/
theorem claim_C5 (pow15 : ℚ → ℚ) (task : Task) (strategy : String) (config? : Option Config)
    (all_tasks? : Option (List Task)) (prefs? : Option Prefs)
    (h : task.title.isMissing = true ∨ task.due_date.isMissing = true
        ∨ task.estimated_hours.isMissing = true ∨ task.importance.isMissing = true) :
    score_task pow15 task strategy config? all_tasks? prefs? =
      .ok (0, "Missing required fields: " ++ String.intercalate ", " (missingFields task),
        .empty) := by
  obtain ⟨i, t, d, e, im, deps⟩ := task
  cases t <;> cases d <;> cases e <;> cases im <;>
    first
      | rfl
      | simp [PyField.isMissing] at h

/-- Witness for C5: a task whose `title` key is absent. -/
theorem claim_C5_witness :
    score_task pw0 missingTitleTask "fast_wins" none none none =
      .ok (0, "Missing required fields: title", .empty) :=
  claim_C5 pw0 missingTitleTask "fast_wins" none none none (Or.inl rfl)

/-- Claim C8: every successful `analyze_tasks` run returns its rows in
descending score order, and the ordering is stable: for each score value,
the rows carrying it (projected to score and task, which the flag write
leaves untouched) appear exactly as in the scored list, which is itself a
subsequence of the input batch (rows in batch order, failed tasks
skipped). -/
theorem claim_C8 (pw : ℚ → ℚ) (tasks : List Task) (strategy : String) (config? : Option Config)
    (prefs? : Option Prefs) (r : AnalysisResult)
    (h : analyze_tasks pw tasks strategy config? prefs? = .ok r) :
    List.Pairwise (fun a b : ScoredTask => b.score ≤ a.score) r.analyzed_tasks
    ∧ (∀ s : ℚ,
        (r.analyzed_tasks.filter (fun st => decide (st.score = s))).map projST =
          ((scoreLoop pw strategy config? tasks (some (prefs?.getD Prefs.empty)) tasks).1.filter
            (fun st => decide (st.score = s))).map projST)
    ∧ ((scoreLoop pw strategy config? tasks (some (prefs?.getD Prefs.empty)) tasks).1.map
        (fun st => st.task)).Sublist tasks := by
  obtain ⟨htasks, he⟩ | ⟨hs, hhs, han⟩ := analyze_ok_shape pw tasks strategy config? prefs? r h
  · subst htasks
    exact ⟨by rw [he]; exact List.Pairwise.nil,
      fun s => by rw [he]; simp [scoreLoop],
      by simp [scoreLoop]⟩
  · have hlen : (feasWalkHours ((prefs?.getD Prefs.empty).available_hours.getD 8) hs 0).1.length =
        (pySortByScoreDesc
          (scoreLoop pw strategy config? tasks (some (prefs?.getD Prefs.empty)) tasks).1).length := by
      rw [feasWalkHours_length]
      exact extractHours_length _ hs hhs
    have hsorted : List.Pairwise scoreGE (pySortByScoreDesc
        (scoreLoop pw strategy config? tasks (some (prefs?.getD Prefs.empty)) tasks).1) :=
      List.sorted_insertionSort scoreGE _
    refine ⟨?_, fun s => ?_,
      scoreLoop_tasks_sublist pw strategy config? tasks (some (prefs?.getD Prefs.empty)) tasks⟩
    · rw [han]
      have h1 : List.Pairwise (fun p q : ℚ × Task => q.1 ≤ p.1)
          ((pySortByScoreDesc
            (scoreLoop pw strategy config? tasks
              (some (prefs?.getD Prefs.empty)) tasks).1).map projST) := by
        rw [List.pairwise_map]
        exact hsorted
      have h2 : List.Pairwise (fun p q : ℚ × Task => q.1 ≤ p.1)
          ((markFlags
            (pySortByScoreDesc
              (scoreLoop pw strategy config? tasks (some (prefs?.getD Prefs.empty)) tasks).1)
            (feasWalkHours ((prefs?.getD Prefs.empty).available_hours.getD 8) hs 0).1).map
              projST) := by
        rw [markFlags_map_proj _ _ hlen]
        exact h1
      exact List.pairwise_map.mp h2
    · rw [han, markFlags_filter_map s _ _ hlen, filter_insertionSort_score]

/-- Witness for C8 at a concrete one-task run (score filter at 5). -/
theorem claim_C8_witness :
    List.Pairwise (fun a b : ScoredTask => b.score ≤ a.score) c8Res.analyzed_tasks
    ∧ ((c8Res.analyzed_tasks.filter (fun st => decide (st.score = 5))).map projST =
        ((scoreLoop pw0 "smart_balance" none [mkTask 1 "G" []]
          (some ((none : Option Prefs).getD Prefs.empty)) [mkTask 1 "G" []]).1.filter
            (fun st => decide (st.score = 5))).map projST)
    ∧ ((scoreLoop pw0 "smart_balance" none [mkTask 1 "G" []]
        (some ((none : Option Prefs).getD Prefs.empty)) [mkTask 1 "G" []]).1.map
          (fun st => st.task)).Sublist [mkTask 1 "G" []] :=
  ⟨(claim_C8 pw0 [mkTask 1 "G" []] "smart_balance" none none c8Res rfl).1,
    (claim_C8 pw0 [mkTask 1 "G" []] "smart_balance" none none c8Res rfl).2.1 5,
    (claim_C8 pw0 [mkTask 1 "G" []] "smart_balance" none none c8Res rfl).2.2⟩

/-- Claim C9 (counterexample): the loop of `calculate_dependency_boost`
counts every task whose dependency list holds the id, the task itself
included: a lone self-referencing task gets boost 2.0 although the number
of OTHER tasks listing it is 0, so the claimed `2.0 × (other dependents)`
law fails. -/
theorem claim_C9_counterexample :
    calculate_dependency_boost selfRefTask [selfRefTask] = .ok 2
    ∧ numOtherDependents selfRefTask [selfRefTask] = 0
    ∧ ((numOtherDependents selfRefTask [selfRefTask] : ℕ) : ℚ) * 2 ≠ 2 := by
  refine ⟨?_, ?_, ?_⟩
  · simp [calculate_dependency_boost, selfRefTask]
  · simp [numOtherDependents]
  · simp [numOtherDependents]

/-- Claim C9 (amended): the boost equals 2.0 times the number of tasks in
the batch whose dependency list contains the task's id — the task itself
included when it lists its own id; whenever the task does not list its
own id this count coincides with the count over the other tasks only, so
a task with N distinct dependents and no self-reference scores exactly
N × 2.0. -/
theorem claim_C9_amended (t : Task) (batch : List Task) (i : Nat) (hid : t.id? = some i) :
    calculate_dependency_boost t batch =
      .ok (((batch.countP (fun o => o.dependencies.contains i) : ℕ) : ℚ) * 2)
    ∧ (i ∉ t.dependencies →
        batch.countP (fun o => o.dependencies.contains i) =
          (batch.filter (fun o => o ≠ t)).countP (fun o => o.dependencies.contains i)) := by
  constructor
  · simp [calculate_dependency_boost, hid]
  · intro hself
    rw [List.countP_filter]
    refine List.countP_congr (fun o _ => ?_)
    by_cases hc : o.dependencies.contains i = true
    · have hot : o ≠ t := fun he => hself (by
        have := hc
        rw [he] at this
        exact List.mem_of_elem_eq_true this)
      simp [hc, hot]
    · simp [Bool.not_eq_true] at hc
      simp [hc]

/-- Witness for the amended C9: a task with two distinct dependents and
no self-reference has boost `2 × 2.0`. -/
theorem claim_C9_amended_witness :
    calculate_dependency_boost (mkTask 1 "Hub" []) [mkTask 2 "D1" [1], mkTask 3 "D2" [1]] =
      .ok (((2 : ℕ) : ℚ) * 2)
    ∧ ([mkTask 2 "D1" [1], mkTask 3 "D2" [1]].countP
          (fun o => o.dependencies.contains 1)) =
        (([mkTask 2 "D1" [1], mkTask 3 "D2" [1]].filter
            (fun o => o ≠ mkTask 1 "Hub" [])).countP
          (fun o => o.dependencies.contains 1)) :=
  ⟨(claim_C9_amended (mkTask 1 "Hub" []) [mkTask 2 "D1" [1], mkTask 3 "D2" [1]] 1 rfl).1,
    (claim_C9_amended (mkTask 1 "Hub" []) [mkTask 2 "D1" [1], mkTask 3 "D2" [1]] 1 rfl).2
      (by simp [mkTask])⟩

/-- Claim C6: in the orchestrator's greedy walk over the score-sorted
rows, a position is marked completable exactly when the hours committed by
the earlier completable positions plus its own hours fit the available
budget (only completable positions add to the committed hours); for
sorted durations `[3, 3, 3]` and 5 available hours exactly the first
position is completable (flags `[true, false, false]`, 3 committed hours,
1 task), although the second task's own duration also fits the budget;
and every successful `analyze_tasks` run produces exactly its scored
rows, sorted, flagged by this walk over their extracted hours. -/
theorem claim_C6 :
    (∀ (avail : ℚ) (hs : List ℚ) (i : Nat), i < hs.length →
      (((feasWalkHours avail hs 0).1.getD i false) = true ↔
        committedHours (hs.take i) ((feasWalkHours avail hs 0).1.take i)
          + hs.getD i 0 ≤ avail))
    ∧ feasWalkHours 5 [3, 3, 3] 0 = ([true, false, false], 3, 1)
    ∧ (∀ (pw : ℚ → ℚ) (tasks : List Task) (strategy : String) (config? : Option Config)
        (prefs? : Option Prefs) (r : AnalysisResult),
        analyze_tasks pw tasks strategy config? prefs? = .ok r →
        (tasks = [] ∧ r.analyzed_tasks = [])
        ∨ ∃ hs,
            extractHours (pySortByScoreDesc
              (scoreLoop pw strategy config? tasks (some (prefs?.getD Prefs.empty)) tasks).1) =
                .ok hs
            ∧ r.analyzed_tasks =
                markFlags
                  (pySortByScoreDesc
                    (scoreLoop pw strategy config? tasks
                      (some (prefs?.getD Prefs.empty)) tasks).1)
                  (feasWalkHours ((prefs?.getD Prefs.empty).available_hours.getD 8) hs 0).1) := by
  refine ⟨fun avail hs i hi => ?_, ?_, analyze_ok_shape⟩
  · simpa using feasWalkHours_flag avail hs 0 i hi
  · norm_num [feasWalkHours]

/-- Witness for C6: the characterisation applied at the `[3, 3, 3]` walk,
position 1, and the shape conjunct applied to a concrete one-task run. -/
theorem claim_C6_witness :
    (((feasWalkHours 5 [3, 3, 3] 0).1.getD 1 false) = true ↔
      committedHours ([3, 3, 3].take 1) ((feasWalkHours 5 [3, 3, 3] 0).1.take 1)
        + [3, 3, 3].getD 1 0 ≤ 5)
    ∧ (([mkTask 1 "W" []] = ([] : List Task) ∧ c6Res.analyzed_tasks = [])
        ∨ ∃ hs,
            extractHours (pySortByScoreDesc
              (scoreLoop pw0 "smart_balance" none [mkTask 1 "W" []]
                (some ((none : Option Prefs).getD Prefs.empty)) [mkTask 1 "W" []]).1) =
                .ok hs
            ∧ c6Res.analyzed_tasks =
                markFlags
                  (pySortByScoreDesc
                    (scoreLoop pw0 "smart_balance" none [mkTask 1 "W" []]
                      (some ((none : Option Prefs).getD Prefs.empty)) [mkTask 1 "W" []]).1)
                  (feasWalkHours
                    (((none : Option Prefs).getD Prefs.empty).available_hours.getD 8) hs 0).1) :=
  ⟨claim_C6.1 5 [3, 3, 3] 1 (by norm_num),
    claim_C6.2.2 pw0 [mkTask 1 "W" []] "smart_balance" none none c6Res rfl⟩

/-- Claim C7 (counterexample): with the default ceiling 10 and no crisis
mode, 10 and 11 days overdue both score `min(10 + days×0.5, 15) = 15`:
the overdue score is NOT strictly increasing once the 15.0 cap saturates. -/
theorem claim_C7_counterexample :
    (calculate_urgency_score (.iso (-10)) 10 false).1 = 15
    ∧ (calculate_urgency_score (.iso (-11)) 10 false).1 = 15
    ∧ ¬ ((calculate_urgency_score (.iso (-10)) 10 false).1
          < (calculate_urgency_score (.iso (-11)) 10 false).1)
    ∧ (calculate_urgency_score (.iso (-10)) 10 false).2 = "OVERDUE"
    ∧ (calculate_urgency_score (.iso (-11)) 10 false).2 = "OVERDUE" := by
  refine ⟨?_, ?_, ?_, ?_, ?_⟩ <;> norm_num [calculate_urgency_score, pyFromIsoformat]

/-- Claim C7 (amended): for overdue due dates the urgency score weakly
increases with the number of overdue days, strictly so while the
pre-multiplier value `max_score + |days| × rate` is at or below the 15.0
cap, and the pre-multiplier value returned never exceeds 15.0 (the score
is at most `15 × multiplier`). -/
theorem claim_C7_amended (max_score : ℚ) (crisis : Bool) (d₁ d₂ : ℤ)
    (h₁ : d₁ < 0) (h₂ : d₂ < 0) :
    (d₂ ≤ d₁ →
      (calculate_urgency_score (.iso d₁) max_score crisis).1
        ≤ (calculate_urgency_score (.iso d₂) max_score crisis).1)
    ∧ (d₂ < d₁ →
        max_score + ((|d₂| : ℤ) : ℚ) * (if crisis then 1 else 1/2) ≤ 15 →
      (calculate_urgency_score (.iso d₁) max_score crisis).1
        < (calculate_urgency_score (.iso d₂) max_score crisis).1)
    ∧ (calculate_urgency_score (.iso d₁) max_score crisis).1
        ≤ 15 * (if crisis then (3 : ℚ)/2 else 1) := by
  have hrpos : (0 : ℚ) < (if crisis then 1 else 1/2) := by cases crisis <;> norm_num
  have hmpos : (0 : ℚ) < (if crisis then (3 : ℚ)/2 else 1) := by cases crisis <;> norm_num
  have he : ∀ d : ℤ, d < 0 →
      (calculate_urgency_score (.iso d) max_score crisis).1 =
        min (max_score + ((|d| : ℤ) : ℚ) * (if crisis then 1 else 1/2)) 15 *
          (if crisis then (3 : ℚ)/2 else 1) := by
    intro d hd
    simp [calculate_urgency_score, pyFromIsoformat, hd]
  rw [he d₁ h₁, he d₂ h₂]
  refine ⟨fun hle => ?_, fun hlt hcap => ?_, ?_⟩
  · refine mul_le_mul_of_nonneg_right (min_le_min ?_ le_rfl) hmpos.le
    refine add_le_add_left (mul_le_mul_of_nonneg_right ?_ hrpos.le) max_score
    exact_mod_cast (by rw [abs_of_neg h₁, abs_of_neg h₂]; exact neg_le_neg hle : |d₁| ≤ |d₂|)
  · have habs : ((|d₁| : ℤ) : ℚ) < ((|d₂| : ℤ) : ℚ) := by
      exact_mod_cast (by rw [abs_of_neg h₁, abs_of_neg h₂]; exact neg_lt_neg hlt : |d₁| < |d₂|)
    have hlt' : max_score + ((|d₁| : ℤ) : ℚ) * (if crisis then 1 else 1/2)
        < max_score + ((|d₂| : ℤ) : ℚ) * (if crisis then 1 else 1/2) :=
      add_lt_add_left (mul_lt_mul_of_pos_right habs hrpos) max_score
    rw [min_eq_left hcap, min_eq_left (le_trans hlt'.le hcap)]
    exact mul_lt_mul_of_pos_right hlt' hmpos
  · exact mul_le_mul_of_nonneg_right (min_le_right _ _) hmpos.le

/-- Witness for the amended C7 at 2 vs 3 days overdue, ceiling 10, no
crisis: scores 11.0 and 11.5. -/
theorem claim_C7_amended_witness :
    ((calculate_urgency_score (.iso (-2)) 10 false).1
      ≤ (calculate_urgency_score (.iso (-3)) 10 false).1)
    ∧ ((calculate_urgency_score (.iso (-2)) 10 false).1
      < (calculate_urgency_score (.iso (-3)) 10 false).1)
    ∧ ((calculate_urgency_score (.iso (-2)) 10 false).1
      ≤ 15 * (if false then (3 : ℚ)/2 else 1)) :=
  ⟨(claim_C7_amended 10 false (-2) (-3) (by norm_num) (by norm_num)).1 (by norm_num),
    (claim_C7_amended 10 false (-2) (-3) (by norm_num) (by norm_num)).2.1 (by norm_num)
      (by norm_num),
    (claim_C7_amended 10 false (-2) (-3) (by norm_num) (by norm_num)).2.2⟩

/-- Claim C10: a task without an `id` key makes cycle detection (the
`task_map` comprehension) raise `KeyError`; `analyze_tasks` runs cycle
detection before its per-task `try`, so the whole batch aborts with that
`KeyError` before any task is scored, and `calculate_dependency_boost`
likewise raises on such a task. -/
theorem claim_C10 (pow15 : ℚ → ℚ) (tasks : List Task) (strategy : String)
    (config? : Option Config) (prefs? : Option Prefs) (t : Task)
    (ht : t ∈ tasks) (hid : t.id? = none) :
    detect_circular_dependencies tasks = .error .keyError
    ∧ analyze_tasks pow15 tasks strategy config? prefs? = .error .keyError
    ∧ calculate_dependency_boost t tasks = .error .keyError := by
  have hdet : detect_circular_dependencies tasks = .error .keyError := by
    simp [detect_circular_dependencies, buildTaskMap, buildTaskMapGo_err [] tasks ⟨t, ht, hid⟩]
  have hne : tasks.isEmpty = false := by cases tasks with
    | nil => cases ht
    | cons a l => rfl
  refine ⟨hdet, ?_, by simp [calculate_dependency_boost, hid]⟩
  simp [analyze_tasks, hne, hdet]

/-- Witness for C10 at a concrete one-task batch lacking `id`. -/
theorem claim_C10_witness :
    detect_circular_dependencies [noIdTask] = .error .keyError
    ∧ analyze_tasks pw0 [noIdTask] "smart_balance" none none = .error .keyError
    ∧ calculate_dependency_boost noIdTask [noIdTask] = .error .keyError :=
  claim_C10 pw0 [noIdTask] "smart_balance" none none noIdTask (List.mem_singleton.mpr rfl) rfl

end TaskAnalyzer
